import Mathlib

/-!
# Verification of the catalog backend (src/index.ts)

Shallow embedding of the catalog/e-commerce backend: an Express service with
four in-memory collections (categories, products, collections, settings),
CRUD handlers operating on a shared `DataStore` cache, a stateless admin
password check, and whole-document JSON persistence.

Request bodies arrive as parsed JSON; a JS object spread `{...old, ...body}`
overwrites exactly the fields present in the body.  Bodies are therefore
embedded as records of `Option` fields (`none` = field absent from the JSON
body).  Entity identifiers are generated as `Date.now().toString()`; the
clock value is passed explicitly as a `Nat` parameter `now`.
-/

set_option autoImplicit false

namespace Catalog

/-- A `{volume, price}` pair of a product (interface `Volume`). -/
structure Volume where
  volume : String
  price : Int
  deriving DecidableEq, Repr

/-- A stored product (interface `Product`). -/
structure Product where
  id : String
  name : String
  description : String
  image : String
  volumes : List Volume
  categoryId : String
  isLiked : Bool
  deriving DecidableEq, Repr

/-- A stored category (interface `Category`). -/
structure Category where
  id : String
  name : String
  deriving DecidableEq, Repr

/-- A `{productId, recommendedVolumeIndex}` reference inside a collection
(interface `ProductReference`). -/
structure ProductReference where
  productId : String
  recommendedVolumeIndex : Int
  deriving DecidableEq, Repr

/-- A stored collection (interface `Collection`). -/
structure Collection where
  id : String
  name : String
  description : String
  productIds : List ProductReference
  deriving DecidableEq, Repr

/-- The settings singleton (interface `Settings`). -/
structure Settings where
  phoneNumber : String
  deriving DecidableEq, Repr

/-- The aggregate in-memory store (interface `DataStore` / the `dataCache`
global). -/
structure DataStore where
  products : List Product
  categories : List Category
  collections : List Collection
  settings : Settings
  deriving DecidableEq, Repr

/-- The boot-time default cache value (`let dataCache: DataStore = {...}`):
all lists empty, blank phone number. -/
def defaultStore : DataStore :=
  { products := []
    categories := []
    collections := []
    settings := { phoneNumber := "" } }

/-! ## Request bodies

A JSON request body for a category/product/collection endpoint, with `none`
for fields absent from the body.  The source performs no validation, so any
combination of present/absent fields is allowed. -/

/-- Parsed JSON body of a category create/update request. -/
structure CategoryBody where
  id : Option String := none
  name : Option String := none
  deriving DecidableEq, Repr

/-- Parsed JSON body of a product create/update request. -/
structure ProductBody where
  id : Option String := none
  name : Option String := none
  description : Option String := none
  image : Option String := none
  volumes : Option (List Volume) := none
  categoryId : Option String := none
  isLiked : Option Bool := none
  deriving DecidableEq, Repr

/-- Parsed JSON body of a collection create/update request. -/
structure CollectionBody where
  id : Option String := none
  name : Option String := none
  description : Option String := none
  productIds : Option (List ProductReference) := none
  deriving DecidableEq, Repr

/-! ## Shallow merge (JS object spread)

`{...old, ...body}`: every field present in the body overwrites the old
field wholesale (arrays included); every absent field keeps the old value. -/

/-- `{...old, ...body}` for categories. -/
def mergeCategory (old : Category) (body : CategoryBody) : Category :=
  { id := body.id.getD old.id
    name := body.name.getD old.name }

/-- `{...old, ...body}` for products. -/
def mergeProduct (old : Product) (body : ProductBody) : Product :=
  { id := body.id.getD old.id
    name := body.name.getD old.name
    description := body.description.getD old.description
    image := body.image.getD old.image
    volumes := body.volumes.getD old.volumes
    categoryId := body.categoryId.getD old.categoryId
    isLiked := body.isLiked.getD old.isLiked }

/-- `{...old, ...body}` for collections. -/
def mergeCollection (old : Collection) (body : CollectionBody) : Collection :=
  { id := body.id.getD old.id
    name := body.name.getD old.name
    description := body.description.getD old.description
    productIds := body.productIds.getD old.productIds }

/-! ## Generic list helpers mirroring `findIndex` + assignment / `splice` -/

/-- `findIndex` + `arr[index] = f(arr[index])`: replace the first element
satisfying `p` by its image under `f`, returning the replaced element and
the new list, or `none` when no element matches (the 404 branch). -/
def updateFirst {α : Type} (p : α → Bool) (f : α → α) : List α → Option (α × List α)
  | [] => none
  | x :: xs =>
    if p x then
      some (f x, f x :: xs)
    else
      match updateFirst p f xs with
      | some (y, ys) => some (y, x :: ys)
      | none => none

/-- `findIndex` + `splice(index, 1)`: remove the first element satisfying
`p`, or `none` when no element matches (the 404 branch). -/
def removeFirst {α : Type} (p : α → Bool) : List α → Option (List α)
  | [] => none
  | x :: xs =>
    if p x then
      some xs
    else
      match removeFirst p xs with
      | some ys => some (x :: ys)
      | none => none

/-! ## Category handlers -/

/-- `GET /api/categories/:id`: linear scan by id. -/
def getCategoryById (s : DataStore) (idParam : String) : Option Category :=
  s.categories.find? (fun c => c.id == idParam)

/-- `POST /api/categories`: `{id: Date.now().toString(), ...req.body}`,
pushed onto the list.  Returns the created category and the new store. -/
def createCategory (s : DataStore) (now : Nat) (body : CategoryBody) :
    Category × DataStore :=
  let newCategory : Category :=
    { id := body.id.getD (toString now)
      name := body.name.getD "" }
  (newCategory, { s with categories := s.categories ++ [newCategory] })

/-- `PUT /api/categories/:id`: find by id, replace with
`{...old, ...req.body}`, return the merged entity; `none` = 404. -/
def updateCategory (s : DataStore) (idParam : String) (body : CategoryBody) :
    Option Category × DataStore :=
  match updateFirst (fun c => c.id == idParam) (fun c => mergeCategory c body)
      s.categories with
  | some (merged, cats) => (some merged, { s with categories := cats })
  | none => (none, s)

/-- `DELETE /api/categories/:id`: find by id, splice out; `false` = 404. -/
def deleteCategory (s : DataStore) (idParam : String) : Bool × DataStore :=
  match removeFirst (fun c => c.id == idParam) s.categories with
  | some cats => (true, { s with categories := cats })
  | none => (false, s)

/-! ## Product handlers -/

/-- `GET /api/products` with optional `categoryId` and `isLiked` query
parameters.  `if (req.query.categoryId)` is a JS truthiness test, so an
absent or empty-string parameter applies no category filter; the liked
filter applies only when the parameter is exactly the string `"true"`. -/
def listProducts (s : DataStore) (categoryId : Option String)
    (isLiked : Option String) : List Product :=
  let ps :=
    match categoryId with
    | some c => if c = "" then s.products
                else s.products.filter (fun p => p.categoryId == c)
    | none => s.products
  if isLiked = some "true" then ps.filter (fun p => p.isLiked == true) else ps

/-- `GET /api/products/:id`: linear scan by id. -/
def getProductById (s : DataStore) (idParam : String) : Option Product :=
  s.products.find? (fun p => p.id == idParam)

/-- `POST /api/products`: `{id: Date.now().toString(), ...req.body,
isLiked: false}` — the trailing `isLiked: false` overwrites any
caller-supplied liked flag. -/
def createProduct (s : DataStore) (now : Nat) (body : ProductBody) :
    Product × DataStore :=
  let newProduct : Product :=
    { id := body.id.getD (toString now)
      name := body.name.getD ""
      description := body.description.getD ""
      image := body.image.getD ""
      volumes := body.volumes.getD []
      categoryId := body.categoryId.getD ""
      isLiked := false }
  (newProduct, { s with products := s.products ++ [newProduct] })

/-- `PUT /api/products/:id`: find by id, replace with
`{...old, ...req.body}`, return the merged entity; `none` = 404. -/
def updateProduct (s : DataStore) (idParam : String) (body : ProductBody) :
    Option Product × DataStore :=
  match updateFirst (fun p => p.id == idParam) (fun p => mergeProduct p body)
      s.products with
  | some (merged, ps) => (some merged, { s with products := ps })
  | none => (none, s)

/-- `DELETE /api/products/:id`: find by id, splice out; `false` = 404. -/
def deleteProduct (s : DataStore) (idParam : String) : Bool × DataStore :=
  match removeFirst (fun p => p.id == idParam) s.products with
  | some ps => (true, { s with products := ps })
  | none => (false, s)

/-- `PATCH /api/products/:id/like`: toggle `isLiked` on the first product
with the given id. -/
def toggleProductLike (s : DataStore) (idParam : String) :
    Option Product × DataStore :=
  match updateFirst (fun p => p.id == idParam)
      (fun p => { p with isLiked := !p.isLiked }) s.products with
  | some (toggled, ps) => (some toggled, { s with products := ps })
  | none => (none, s)

/-! ## Collection handlers -/

/-- One entry of the expanded view returned by `GET /api/collections/:id`:
`{...ref, product}` where `product` is the result of
`data.products.find(p => p.id === ref.productId)` (`none` for a dangling
reference). -/
structure ExpandedRef where
  productId : String
  recommendedVolumeIndex : Int
  product : Option Product
  deriving DecidableEq, Repr

/-- `{...collection, products: productsWithDetails}`. -/
structure ExpandedCollection where
  id : String
  name : String
  description : String
  productIds : List ProductReference
  products : List ExpandedRef
  deriving DecidableEq, Repr

/-- Expansion of a single product reference against the product list. -/
def expandRef (s : DataStore) (ref : ProductReference) : ExpandedRef :=
  { productId := ref.productId
    recommendedVolumeIndex := ref.recommendedVolumeIndex
    product := s.products.find? (fun p => p.id == ref.productId) }

/-- `GET /api/collections/:id`: find the collection, expand each product
reference with the full product record; `none` = 404. -/
def getCollectionById (s : DataStore) (idParam : String) :
    Option ExpandedCollection :=
  match s.collections.find? (fun c => c.id == idParam) with
  | some c =>
    some
      { id := c.id
        name := c.name
        description := c.description
        productIds := c.productIds
        products := c.productIds.map (expandRef s) }
  | none => none

/-- `POST /api/collections`: `{id: Date.now().toString(), ...req.body}`. -/
def createCollection (s : DataStore) (now : Nat) (body : CollectionBody) :
    Collection × DataStore :=
  let newCollection : Collection :=
    { id := body.id.getD (toString now)
      name := body.name.getD ""
      description := body.description.getD ""
      productIds := body.productIds.getD [] }
  (newCollection, { s with collections := s.collections ++ [newCollection] })

/-- `PUT /api/collections/:id`: find by id, replace with
`{...old, ...req.body}`, return the merged entity; `none` = 404. -/
def updateCollection (s : DataStore) (idParam : String) (body : CollectionBody) :
    Option Collection × DataStore :=
  match updateFirst (fun c => c.id == idParam)
      (fun c => mergeCollection c body) s.collections with
  | some (merged, cs) => (some merged, { s with collections := cs })
  | none => (none, s)

/-- `DELETE /api/collections/:id`: find by id, splice out; `false` = 404. -/
def deleteCollection (s : DataStore) (idParam : String) : Bool × DataStore :=
  match removeFirst (fun c => c.id == idParam) s.collections with
  | some cs => (true, { s with collections := cs })
  | none => (false, s)

/-! ## Admin auth (`POST /api/admin/auth`) -/

/-- Outcome of the admin auth check: 400 `{success:false}`,
401 `{success:false}`, or 200 `{success:true}`. -/
inductive AuthOutcome where
  | badRequest
  | unauthorized
  | success
  deriving DecidableEq, Repr

/-- `const {password} = req.body; if (!password) ... 400; if (password ===
adminPassword) success else 401`.  A JS falsiness test on a string field
treats both an absent field and the empty string as missing. -/
def adminAuth (password : Option String) (adminPassword : String) :
    AuthOutcome :=
  match password with
  | none => .badRequest
  | some p =>
    if p = "" then .badRequest
    else if p = adminPassword then .success
    else .unauthorized

/-- The full handler: the auth check never touches the data cache. -/
def adminAuthHandler (s : DataStore) (password : Option String)
    (adminPassword : String) : AuthOutcome × DataStore :=
  (adminAuth password adminPassword, s)

/-! ## Persistence (`saveCacheAsync` / `loadDataIntoCache`)

Persistence serializes each of the four parts with `JSON.stringify` and
reads them back with `JSON.parse`.  The embedding works at the level of the
JSON value trees those functions exchange; a failed `fs.readFile` or a
`JSON.parse` throw on corrupt text is modelled as `none` in place of the
document's tree. -/

/-- A JSON value. -/
inductive Json where
  | str (s : String)
  | num (n : Int)
  | bool (b : Bool)
  | null
  | arr (elems : List Json)
  | obj (fields : List (String × Json))

/-- First value stored under key `k`, as in a JS object lookup. -/
def jGet (j : Json) (k : String) : Option Json :=
  match j with
  | .obj fields => fields.lookup k
  | _ => none

def jAsString : Json → Option String
  | .str s => some s
  | _ => none

def jAsNum : Json → Option Int
  | .num n => some n
  | _ => none

def jAsBool : Json → Option Bool
  | .bool b => some b
  | _ => none

def jAsArr : Json → Option (List Json)
  | .arr elems => some elems
  | _ => none

/-- Decode every element of a JSON array, failing if any element fails. -/
def decodeList {α : Type} (dec : Json → Option α) : List Json → Option (List α)
  | [] => some []
  | j :: js =>
    match dec j, decodeList dec js with
    | some a, some as => some (a :: as)
    | _, _ => none

/-! Encoders: the JSON document shapes written by `JSON.stringify` on each
part of the `DataStore`. -/

def volumeToJson (v : Volume) : Json :=
  .obj [("volume", .str v.volume), ("price", .num v.price)]

def productToJson (p : Product) : Json :=
  .obj
    [("id", .str p.id), ("name", .str p.name),
     ("description", .str p.description), ("image", .str p.image),
     ("volumes", .arr (p.volumes.map volumeToJson)),
     ("categoryId", .str p.categoryId), ("isLiked", .bool p.isLiked)]

def categoryToJson (c : Category) : Json :=
  .obj [("id", .str c.id), ("name", .str c.name)]

def productReferenceToJson (r : ProductReference) : Json :=
  .obj
    [("productId", .str r.productId),
     ("recommendedVolumeIndex", .num r.recommendedVolumeIndex)]

def collectionToJson (c : Collection) : Json :=
  .obj
    [("id", .str c.id), ("name", .str c.name),
     ("description", .str c.description),
     ("productIds", .arr (c.productIds.map productReferenceToJson))]

def settingsToJson (s : Settings) : Json :=
  .obj [("phoneNumber", .str s.phoneNumber)]

/-! Decoders: reading a persisted document back into the typed store. -/

def jsonToVolume (j : Json) : Option Volume := do
  let volume ← (jGet j "volume").bind jAsString
  let price ← (jGet j "price").bind jAsNum
  pure { volume := volume, price := price }

def jsonToProduct (j : Json) : Option Product := do
  let id ← (jGet j "id").bind jAsString
  let name ← (jGet j "name").bind jAsString
  let description ← (jGet j "description").bind jAsString
  let image ← (jGet j "image").bind jAsString
  let volumesArr ← (jGet j "volumes").bind jAsArr
  let volumes ← decodeList jsonToVolume volumesArr
  let categoryId ← (jGet j "categoryId").bind jAsString
  let isLiked ← (jGet j "isLiked").bind jAsBool
  pure
    { id := id, name := name, description := description, image := image
      volumes := volumes, categoryId := categoryId, isLiked := isLiked }

def jsonToCategory (j : Json) : Option Category := do
  let id ← (jGet j "id").bind jAsString
  let name ← (jGet j "name").bind jAsString
  pure { id := id, name := name }

def jsonToProductReference (j : Json) : Option ProductReference := do
  let productId ← (jGet j "productId").bind jAsString
  let idx ← (jGet j "recommendedVolumeIndex").bind jAsNum
  pure { productId := productId, recommendedVolumeIndex := idx }

def jsonToCollection (j : Json) : Option Collection := do
  let id ← (jGet j "id").bind jAsString
  let name ← (jGet j "name").bind jAsString
  let description ← (jGet j "description").bind jAsString
  let refsArr ← (jGet j "productIds").bind jAsArr
  let refs ← decodeList jsonToProductReference refsArr
  pure { id := id, name := name, description := description, productIds := refs }

def jsonToSettings (j : Json) : Option Settings := do
  let phoneNumber ← (jGet j "phoneNumber").bind jAsString
  pure { phoneNumber := phoneNumber }

/-- The four documents written by `saveCacheAsync`
(categories.json, products.json, collections.json, settings.json). -/
structure PersistedDocs where
  categoriesDoc : Json
  productsDoc : Json
  collectionsDoc : Json
  settingsDoc : Json

/-- `saveCacheAsync`: serialize the full snapshot into the four documents. -/
def saveCache (s : DataStore) : PersistedDocs :=
  { categoriesDoc := .arr (s.categories.map categoryToJson)
    productsDoc := .arr (s.products.map productToJson)
    collectionsDoc := .arr (s.collections.map collectionToJson)
    settingsDoc := settingsToJson s.settings }

/-- Reassemble a `DataStore` from the four parsed documents; `none` when a
document does not have the shape of the typed data model. -/
def decodeStore (jc jp jl js : Json) : Option DataStore := do
  let catsArr ← jAsArr jc
  let categories ← decodeList jsonToCategory catsArr
  let prodsArr ← jAsArr jp
  let products ← decodeList jsonToProduct prodsArr
  let collsArr ← jAsArr jl
  let collections ← decodeList jsonToCollection collsArr
  let settings ← jsonToSettings js
  pure
    { products := products, categories := categories
      collections := collections, settings := settings }

/-- `loadDataIntoCache`: read and parse the four documents.  `prev` is the
cache value before the load (the empty `defaultStore` at boot); each
argument is `none` when that document's read or parse failed.  On any
failure the previous cache is kept; the ready flag (`isCacheLoaded`, the
second component) is set to `true` in every case so the server starts. -/
def loadDataIntoCache (prev : DataStore)
    (rc rp rl rs : Option Json) : DataStore × Bool :=
  match rc, rp, rl, rs with
  | some jc, some jp, some jl, some js =>
    match decodeStore jc jp jl js with
    | some s => (s, true)
    | none => (prev, true)
  | _, _, _, _ => (prev, true)

/-- One mutating operation of the HTTP surface (the operations after which
`saveCacheAsync` is invoked). -/
inductive Mutation where
  | createCat (now : Nat) (b : CategoryBody)
  | updateCat (idParam : String) (b : CategoryBody)
  | deleteCat (idParam : String)
  | createProd (now : Nat) (b : ProductBody)
  | updateProd (idParam : String) (b : ProductBody)
  | deleteProd (idParam : String)
  | toggleLike (idParam : String)
  | createColl (now : Nat) (b : CollectionBody)
  | updateColl (idParam : String) (b : CollectionBody)
  | deleteColl (idParam : String)
  | setPhone (phoneNumber : String)

/-- The store after a mutating operation. -/
def applyMutation (s : DataStore) : Mutation → DataStore
  | .createCat now b => (createCategory s now b).2
  | .updateCat idParam b => (updateCategory s idParam b).2
  | .deleteCat idParam => (deleteCategory s idParam).2
  | .createProd now b => (createProduct s now b).2
  | .updateProd idParam b => (updateProduct s idParam b).2
  | .deleteProd idParam => (deleteProduct s idParam).2
  | .toggleLike idParam => (toggleProductLike s idParam).2
  | .createColl now b => (createCollection s now b).2
  | .updateColl idParam b => (updateCollection s idParam b).2
  | .deleteColl idParam => (deleteCollection s idParam).2
  | .setPhone phoneNumber => { s with settings := { phoneNumber := phoneNumber } }

/-! ## Helper lemmas -/

/-- `updateFirst` on a list split around its first match replaces exactly
that element and returns its image. -/
theorem updateFirst_append {α : Type} (p : α → Bool) (f : α → α)
    (l₁ : List α) (x : α) (l₂ : List α)
    (h₁ : ∀ y ∈ l₁, p y = false) (hx : p x = true) :
    updateFirst p f (l₁ ++ x :: l₂) = some (f x, l₁ ++ f x :: l₂) := by
  induction l₁ with
  | nil => simp [updateFirst, hx]
  | cons a l ih =>
    have ha : p a = false := h₁ a (by simp)
    have ih' := ih (fun y hy => h₁ y (by simp [hy]))
    simp [updateFirst, ha, ih']

/-! ## Claim theorems -/

/-- C1: for every existing entity (category, product, or collection) and
every update request body, the Update operation replaces the stored entity
with the shallow merge of the old entity and the body, returns the merged
entity, and in the merge each field absent from the body keeps its old
value, each field present takes the body's value, and array-valued fields
present in the body (`volumes`, `productIds`) are replaced wholesale. -/
theorem update_is_shallow_merge
    (s : DataStore) (pid cid lid : String)
    (pb : ProductBody) (cb : CategoryBody) (lb : CollectionBody)
    (p₁ p₂ : List Product) (oldP : Product)
    (hp : s.products = p₁ ++ oldP :: p₂)
    (hp₁ : ∀ y ∈ p₁, (y.id == pid) = false) (hpx : (oldP.id == pid) = true)
    (c₁ c₂ : List Category) (oldC : Category)
    (hc : s.categories = c₁ ++ oldC :: c₂)
    (hc₁ : ∀ y ∈ c₁, (y.id == cid) = false) (hcx : (oldC.id == cid) = true)
    (l₁ l₂ : List Collection) (oldL : Collection)
    (hl : s.collections = l₁ ++ oldL :: l₂)
    (hl₁ : ∀ y ∈ l₁, (y.id == lid) = false) (hlx : (oldL.id == lid) = true) :
    updateProduct s pid pb =
      (some (mergeProduct oldP pb),
       { s with products := p₁ ++ mergeProduct oldP pb :: p₂ }) ∧
    updateCategory s cid cb =
      (some (mergeCategory oldC cb),
       { s with categories := c₁ ++ mergeCategory oldC cb :: c₂ }) ∧
    updateCollection s lid lb =
      (some (mergeCollection oldL lb),
       { s with collections := l₁ ++ mergeCollection oldL lb :: l₂ }) ∧
    (mergeProduct oldP pb).id = pb.id.getD oldP.id ∧
    (mergeProduct oldP pb).name = pb.name.getD oldP.name ∧
    (mergeProduct oldP pb).description = pb.description.getD oldP.description ∧
    (mergeProduct oldP pb).image = pb.image.getD oldP.image ∧
    (mergeProduct oldP pb).volumes = pb.volumes.getD oldP.volumes ∧
    (mergeProduct oldP pb).categoryId = pb.categoryId.getD oldP.categoryId ∧
    (mergeProduct oldP pb).isLiked = pb.isLiked.getD oldP.isLiked ∧
    (mergeCategory oldC cb).id = cb.id.getD oldC.id ∧
    (mergeCategory oldC cb).name = cb.name.getD oldC.name ∧
    (mergeCollection oldL lb).id = lb.id.getD oldL.id ∧
    (mergeCollection oldL lb).name = lb.name.getD oldL.name ∧
    (mergeCollection oldL lb).description = lb.description.getD oldL.description ∧
    (mergeCollection oldL lb).productIds = lb.productIds.getD oldL.productIds := by
  refine ⟨?_, ?_, ?_, rfl, rfl, rfl, rfl, rfl, rfl, rfl, rfl, rfl, rfl, rfl,
    rfl, rfl⟩
  · unfold updateProduct
    rw [hp, updateFirst_append _ _ p₁ oldP p₂ hp₁ hpx]
  · unfold updateCategory
    rw [hc, updateFirst_append _ _ c₁ oldC c₂ hc₁ hcx]
  · unfold updateCollection
    rw [hl, updateFirst_append _ _ l₁ oldL l₂ hl₁ hlx]

/-- Witness for C1: a concrete store holding one product, one category and
one collection; updating each with a body that sets only some fields. -/
theorem update_is_shallow_merge_witness :
    updateProduct
        { products :=
            [{ id := "p1", name := "n", description := "d", image := "i"
               volumes := [{ volume := "1L", price := 10 }]
               categoryId := "c1", isLiked := true }]
          categories := [{ id := "c1", name := "cat" }]
          collections :=
            [{ id := "l1", name := "col", description := "cd"
               productIds := [{ productId := "p1", recommendedVolumeIndex := 0 }] }]
          settings := { phoneNumber := "7" } }
        "p1" { name := some "n2" } =
      (some
          { id := "p1", name := "n2", description := "d", image := "i"
            volumes := [{ volume := "1L", price := 10 }]
            categoryId := "c1", isLiked := true },
        { products :=
            [{ id := "p1", name := "n2", description := "d", image := "i"
               volumes := [{ volume := "1L", price := 10 }]
               categoryId := "c1", isLiked := true }]
          categories := [{ id := "c1", name := "cat" }]
          collections :=
            [{ id := "l1", name := "col", description := "cd"
               productIds := [{ productId := "p1", recommendedVolumeIndex := 0 }] }]
          settings := { phoneNumber := "7" } }) :=
  (update_is_shallow_merge _ "p1" "c1" "l1" { name := some "n2" } {} {}
      [] []
      { id := "p1", name := "n", description := "d", image := "i"
        volumes := [{ volume := "1L", price := 10 }]
        categoryId := "c1", isLiked := true }
      rfl (by simp) (by decide)
      [] [] { id := "c1", name := "cat" } rfl (by simp) (by decide)
      [] []
      { id := "l1", name := "col", description := "cd"
        productIds := [{ productId := "p1", recommendedVolumeIndex := 0 }] }
      rfl (by simp) (by decide)).1

/-- C6: for every product create request body, including one that sets the
liked flag to true, the created product stored and returned has
`isLiked = false`, and the stored product is exactly the returned one
appended to the product list. -/
theorem create_product_isLiked_false
    (s : DataStore) (now : Nat) (body : ProductBody) :
    (createProduct s now body).1.isLiked = false ∧
    (createProduct s now body).2.products =
      s.products ++ [(createProduct s now body).1] :=
  ⟨rfl, rfl⟩

/-- C9: a caller-supplied `id` in a create body overrides the generated
millisecond-timestamp id for all three entity types, because the body is
spread after the generated identifier; for products a caller-supplied
`isLiked` flag nevertheless does not survive.  The entity carrying the
supplied id is both returned and appended to the store. -/
theorem create_body_id_wins
    (s : DataStore) (now : Nat) (suppliedId : String)
    (cb : CategoryBody) (pb : ProductBody) (lb : CollectionBody)
    (hcb : cb.id = some suppliedId) (hpb : pb.id = some suppliedId)
    (hlb : lb.id = some suppliedId) :
    (createCategory s now cb).1.id = suppliedId ∧
    (createProduct s now pb).1.id = suppliedId ∧
    (createCollection s now lb).1.id = suppliedId ∧
    (createProduct s now pb).1.isLiked = false ∧
    (createCategory s now cb).2.categories =
      s.categories ++ [(createCategory s now cb).1] ∧
    (createProduct s now pb).2.products =
      s.products ++ [(createProduct s now pb).1] ∧
    (createCollection s now lb).2.collections =
      s.collections ++ [(createCollection s now lb).1] := by
  refine ⟨?_, ?_, ?_, rfl, rfl, rfl, rfl⟩
  · simp [createCategory, hcb]
  · simp [createProduct, hpb]
  · simp [createCollection, hlb]

/-- Witness for C9: concrete creates whose bodies carry `id := "42"` (and,
for the product, `isLiked := true`). -/
theorem create_body_id_wins_witness :
    (createCategory defaultStore 7 { id := some "42" }).1.id = "42" ∧
    (createProduct defaultStore 7
        { id := some "42", isLiked := some true }).1.id = "42" ∧
    (createCollection defaultStore 7 { id := some "42" }).1.id = "42" ∧
    (createProduct defaultStore 7
        { id := some "42", isLiked := some true }).1.isLiked = false := by
  have h := create_body_id_wins defaultStore 7 "42"
    { id := some "42" } { id := some "42", isLiked := some true }
    { id := some "42" } rfl rfl rfl
  exact ⟨h.1, h.2.1, h.2.2.1, h.2.2.2.1⟩

/-- C2: fetching a stored collection by identifier returns the collection's
own fields together with one expanded entry per stored product reference,
in the stored order (`e.products` is exactly the elementwise expansion of
`c.productIds`); each entry keeps the reference's product identifier and
recommended-volume-index unchanged, its `product` field is a stored product
whose id equals the reference's product identifier whenever one exists, and
is `none` exactly when the reference is dangling. -/
theorem collection_fetch_expands
    (s : DataStore) (idParam : String) (c : Collection)
    (h : s.collections.find? (fun x => x.id == idParam) = some c) :
    ∃ e, getCollectionById s idParam = some e ∧
      e.id = c.id ∧ e.name = c.name ∧ e.description = c.description ∧
      e.productIds = c.productIds ∧
      e.products = c.productIds.map (expandRef s) ∧
      e.products.length = c.productIds.length ∧
      ∀ ref,
        (expandRef s ref).productId = ref.productId ∧
        (expandRef s ref).recommendedVolumeIndex =
          ref.recommendedVolumeIndex ∧
        (∀ q, (expandRef s ref).product = some q →
          q ∈ s.products ∧ q.id = ref.productId) ∧
        ((expandRef s ref).product = none ↔
          ∀ p ∈ s.products, ¬ p.id = ref.productId) := by
  unfold getCollectionById
  rw [h]
  refine ⟨_, rfl, rfl, rfl, rfl, rfl, rfl, by simp, ?_⟩
  intro ref
  refine ⟨rfl, rfl, ?_, ?_⟩
  · intro q hq
    refine ⟨List.mem_of_find?_eq_some hq, ?_⟩
    have := List.find?_some hq
    simpa using this
  · show s.products.find? (fun p => p.id == ref.productId) = none ↔ _
    rw [List.find?_eq_none]
    simp

/-- Witness for C2: a store with one collection holding one live and one
dangling reference. -/
theorem collection_fetch_expands_witness :
    ∃ e,
      getCollectionById
          { products :=
              [{ id := "p1", name := "n", description := "d", image := "i"
                 volumes := [], categoryId := "c1", isLiked := false }]
            categories := []
            collections :=
              [{ id := "l1", name := "col", description := "cd"
                 productIds :=
                   [{ productId := "p1", recommendedVolumeIndex := 2 },
                    { productId := "ghost", recommendedVolumeIndex := 0 }] }]
            settings := { phoneNumber := "" } }
          "l1" = some e ∧
      e.id = "l1" ∧ e.name = "col" ∧ e.description = "cd" ∧
      e.productIds =
        [{ productId := "p1", recommendedVolumeIndex := 2 },
         { productId := "ghost", recommendedVolumeIndex := 0 }] ∧
      e.products =
        [{ productId := "p1", recommendedVolumeIndex := 2 },
           ({ productId := "ghost",
              recommendedVolumeIndex := 0 } : ProductReference)].map
          (expandRef
            { products :=
                [{ id := "p1", name := "n", description := "d", image := "i"
                   volumes := [], categoryId := "c1", isLiked := false }]
              categories := []
              collections :=
                [{ id := "l1", name := "col", description := "cd"
                   productIds :=
                     [{ productId := "p1", recommendedVolumeIndex := 2 },
                      { productId := "ghost", recommendedVolumeIndex := 0 }] }]
              settings := { phoneNumber := "" } }) ∧
      e.products.length = 2 := by
  obtain ⟨e, h₁, h₂, h₃, h₄, h₅, h₆, h₇, -⟩ :=
    collection_fetch_expands
      { products :=
          [{ id := "p1", name := "n", description := "d", image := "i"
             volumes := [], categoryId := "c1", isLiked := false }]
        categories := []
        collections :=
          [{ id := "l1", name := "col", description := "cd"
             productIds :=
               [{ productId := "p1", recommendedVolumeIndex := 2 },
                { productId := "ghost", recommendedVolumeIndex := 0 }] }]
        settings := { phoneNumber := "" } }
      "l1"
      { id := "l1", name := "col", description := "cd"
        productIds :=
          [{ productId := "p1", recommendedVolumeIndex := 2 },
           { productId := "ghost", recommendedVolumeIndex := 0 }] }
      (by decide)
  exact ⟨e, h₁, h₂, h₃, h₄, h₅, h₆, h₇⟩

/-- C4 counterexample: for the request `?categoryId=` (a categoryId filter
whose value is the empty string) the handler's JS truthiness guard
`if (req.query.categoryId)` skips the filter, so a store holding one
product owned by category `"c1"` is returned whole instead of the empty
subset of products whose owning category identifier equals `""`. -/
theorem product_filters_counterexample :
    listProducts
        { products :=
            [{ id := "p1", name := "a", description := "", image := ""
               volumes := [], categoryId := "c1", isLiked := false }]
          categories := [], collections := []
          settings := { phoneNumber := "" } }
        (some "") none ≠
      ({ products :=
           [{ id := "p1", name := "a", description := "", image := ""
              volumes := [], categoryId := "c1", isLiked := false }]
         categories := [], collections := []
         settings := { phoneNumber := "" } } : DataStore).products.filter
        (fun p => p.categoryId == "") := by
  decide

/-- C4 amended: listing products with `isLiked=true` yields exactly the
stored products whose liked flag is true; a non-empty `categoryId` filter
yields exactly the stored products with that owning category identifier,
with both filters the result equals both orders of applying the two
filters, and a product is in it exactly when it is stored with the given
category and liked; an empty-string `categoryId` value fails the code's
truthiness guard, so no category filter is applied and every product
(subject only to the liked filter) is returned. -/
theorem product_filters_amended (s : DataStore) (c : String) (hc : c ≠ "") :
    listProducts s none (some "true") =
      s.products.filter (fun p => p.isLiked == true) ∧
    listProducts s (some c) none =
      s.products.filter (fun p => p.categoryId == c) ∧
    listProducts s (some c) (some "true") =
      (s.products.filter (fun p => p.categoryId == c)).filter
        (fun p => p.isLiked == true) ∧
    listProducts s (some c) (some "true") =
      (s.products.filter (fun p => p.isLiked == true)).filter
        (fun p => p.categoryId == c) ∧
    (∀ p, p ∈ listProducts s (some c) (some "true") ↔
      p ∈ s.products ∧ p.categoryId = c ∧ p.isLiked = true) ∧
    listProducts s (some "") none = s.products ∧
    listProducts s (some "") (some "true") =
      s.products.filter (fun p => p.isLiked == true) := by
  refine ⟨rfl, ?_, ?_, ?_, ?_, ?_, ?_⟩
  · simp [listProducts, hc]
  · simp [listProducts, hc]
  · simp only [listProducts, hc, if_false, if_pos, List.filter_filter]
    exact List.filter_congr fun p _ => by rw [Bool.and_comm]
  · intro p
    simp [listProducts, hc, List.mem_filter, and_assoc, and_comm]
  · simp [listProducts]
  · simp [listProducts]

/-- Witness for amended C4: one liked product in category `"c1"`, one
unliked product in category `"c2"`. -/
theorem product_filters_amended_witness :
    listProducts
        { products :=
            [{ id := "p1", name := "a", description := "", image := ""
               volumes := [], categoryId := "c1", isLiked := true },
             { id := "p2", name := "b", description := "", image := ""
               volumes := [], categoryId := "c2", isLiked := false }]
          categories := [], collections := []
          settings := { phoneNumber := "" } }
        (some "c1") (some "true") =
      [{ id := "p1", name := "a", description := "", image := ""
         volumes := [], categoryId := "c1", isLiked := true }] := by
  have h :=
    (product_filters_amended
        { products :=
            [{ id := "p1", name := "a", description := "", image := ""
               volumes := [], categoryId := "c1", isLiked := true },
             { id := "p2", name := "b", description := "", image := ""
               volumes := [], categoryId := "c2", isLiked := false }]
          categories := [], collections := []
          settings := { phoneNumber := "" } }
        "c1" (by decide)).2.2.1
  rw [h]
  rfl

/-- C10: the liked-flag filter is applied only when the `isLiked` query
parameter is exactly the string `"true"`; any other value, including
`"false"`, leaves the liked flag out of the filtering, so the result
coincides with the list produced with no `isLiked` parameter at all (all
products, liked or not, subject only to the category filter). -/
theorem isLiked_filter_requires_exact_true
    (s : DataStore) (categoryId : Option String) (v : String)
    (hv : v ≠ "true") :
    listProducts s categoryId (some v) = listProducts s categoryId none ∧
    listProducts s none (some v) = s.products := by
  constructor
  · simp [listProducts, hv]
  · simp [listProducts, hv]

/-- Witness for C10: `isLiked=false` returns liked and unliked products
alike. -/
theorem isLiked_filter_requires_exact_true_witness :
    listProducts
        { products :=
            [{ id := "p1", name := "a", description := "", image := ""
               volumes := [], categoryId := "c1", isLiked := true },
             { id := "p2", name := "b", description := "", image := ""
               volumes := [], categoryId := "c2", isLiked := false }]
          categories := [], collections := []
          settings := { phoneNumber := "" } }
        none (some "false") =
      [{ id := "p1", name := "a", description := "", image := ""
         volumes := [], categoryId := "c1", isLiked := true },
       { id := "p2", name := "b", description := "", image := ""
         volumes := [], categoryId := "c2", isLiked := false }] :=
  (isLiked_filter_requires_exact_true
      { products :=
          [{ id := "p1", name := "a", description := "", image := ""
             volumes := [], categoryId := "c1", isLiked := true },
           { id := "p2", name := "b", description := "", image := ""
             volumes := [], categoryId := "c2", isLiked := false }]
        categories := [], collections := []
        settings := { phoneNumber := "" } }
      none "false" (by decide)).2

/-- C3 counterexample: identifiers are `Date.now().toString()` with no
uniqueness check, so two sequential creates inside the same millisecond
(`now = 5` twice) produce two categories with the identical id `"5"` — the
returned identifier is not unique within its collection at creation time. -/
theorem create_id_unique_counterexample :
    (createCategory (createCategory defaultStore 5 {}).2 5 {}).1.id = "5" ∧
    ((createCategory (createCategory defaultStore 5 {}).2 5 {}).2.categories.countP
        (fun c => c.id == "5")) = 2 := by
  constructor <;> rfl

/-- C3 amended: the identifier returned by a Create is unique within its
collection at creation time provided the request body carries no `id` field
and no already-stored entity of that collection has the millisecond
timestamp's decimal string as its identifier; with a caller-supplied `id`
or a same-millisecond earlier create, duplicates are possible and
unguarded. -/
theorem create_id_unique_amended
    (s : DataStore) (now : Nat)
    (cb : CategoryBody) (pb : ProductBody) (lb : CollectionBody)
    (hcb : cb.id = none) (hpb : pb.id = none) (hlb : lb.id = none)
    (hc : ∀ c ∈ s.categories, c.id ≠ toString now)
    (hp : ∀ p ∈ s.products, p.id ≠ toString now)
    (hl : ∀ l ∈ s.collections, l.id ≠ toString now) :
    ((createCategory s now cb).2.categories.countP
        (fun c => c.id == (createCategory s now cb).1.id)) = 1 ∧
    ((createProduct s now pb).2.products.countP
        (fun p => p.id == (createProduct s now pb).1.id)) = 1 ∧
    ((createCollection s now lb).2.collections.countP
        (fun l => l.id == (createCollection s now lb).1.id)) = 1 := by
  refine ⟨?_, ?_, ?_⟩
  · simp only [createCategory, hcb, Option.getD_none, List.countP_append]
    rw [List.countP_eq_zero.2 (by simpa using hc)]
    simp [List.countP_cons]
  · simp only [createProduct, hpb, Option.getD_none, List.countP_append]
    rw [List.countP_eq_zero.2 (by simpa using hp)]
    simp [List.countP_cons]
  · simp only [createCollection, hlb, Option.getD_none, List.countP_append]
    rw [List.countP_eq_zero.2 (by simpa using hl)]
    simp [List.countP_cons]

/-- Witness for amended C3: creating into a store whose sole category has a
different id. -/
theorem create_id_unique_amended_witness :
    ((createCategory
        { products := [], categories := [{ id := "1", name := "a" }]
          collections := [], settings := { phoneNumber := "" } }
        5 {}).2.categories.countP (fun c => c.id == (createCategory
        { products := [], categories := [{ id := "1", name := "a" }]
          collections := [], settings := { phoneNumber := "" } }
        5 {}).1.id)) = 1 :=
  (create_id_unique_amended
      { products := [], categories := [{ id := "1", name := "a" }]
        collections := [], settings := { phoneNumber := "" } }
      5 {} {} {} rfl rfl rfl
      (by decide) (by simp) (by simp)).1

/-- C5 counterexample: the handler tests JS falsiness (`if (!password)`),
so a password that is present but equal to the empty string is answered
with bad-request (400), not with unauthorized (401) as the claim requires
for every present-but-wrong password. -/
theorem admin_auth_counterexample :
    adminAuth (some "") "secret" = AuthOutcome.badRequest ∧
    AuthOutcome.badRequest ≠ AuthOutcome.unauthorized := by
  constructor <;> decide

/-- C5 amended: a missing or empty password yields bad-request (the code
treats the empty string like a missing field); a non-empty password
different from the configured secret yields unauthorized; a non-empty
password equal to the secret yields success; in every case the check is
stateless and leaves the store unchanged. -/
theorem admin_auth_cases
    (s : DataStore) (pw secret : String) :
    (adminAuthHandler s none secret).1 = AuthOutcome.badRequest ∧
    (adminAuthHandler s (some "") secret).1 = AuthOutcome.badRequest ∧
    (pw ≠ "" → pw ≠ secret →
      (adminAuthHandler s (some pw) secret).1 = AuthOutcome.unauthorized) ∧
    (pw ≠ "" → (adminAuthHandler s (some pw) pw).1 = AuthOutcome.success) ∧
    (∀ password, (adminAuthHandler s password secret).2 = s) := by
  refine ⟨rfl, rfl, ?_, ?_, fun _ => rfl⟩
  · intro h₁ h₂
    simp [adminAuthHandler, adminAuth, h₁, h₂]
  · intro h₁
    simp [adminAuthHandler, adminAuth, h₁]

/-- Witness for amended C5: secret `"s3cret"`, tried with a missing, empty,
wrong and correct password. -/
theorem admin_auth_cases_witness :
    (adminAuthHandler defaultStore none "s3cret").1 =
      AuthOutcome.badRequest ∧
    (adminAuthHandler defaultStore (some "") "s3cret").1 =
      AuthOutcome.badRequest ∧
    (adminAuthHandler defaultStore (some "wrong") "s3cret").1 =
      AuthOutcome.unauthorized ∧
    (adminAuthHandler defaultStore (some "s3cret") "s3cret").1 =
      AuthOutcome.success := by
  have h := admin_auth_cases defaultStore "wrong" "s3cret"
  have h' := admin_auth_cases defaultStore "s3cret" "s3cret"
  exact ⟨h.1, h.2.1, h.2.2.1 (by decide) (by decide), h'.2.2.2.1 (by decide)⟩

/-! ## Round-trip lemmas for the persistence layer -/

theorem decodeList_map {α : Type} {dec : Json → Option α} {enc : α → Json}
    (h : ∀ a, dec (enc a) = some a) (l : List α) :
    decodeList dec (l.map enc) = some l := by
  induction l with
  | nil => rfl
  | cons a l ih => simp [decodeList, h, ih]

theorem jsonToVolume_roundtrip (v : Volume) :
    jsonToVolume (volumeToJson v) = some v := rfl

theorem jsonToCategory_roundtrip (c : Category) :
    jsonToCategory (categoryToJson c) = some c := rfl

theorem jsonToProductReference_roundtrip (r : ProductReference) :
    jsonToProductReference (productReferenceToJson r) = some r := rfl

theorem jsonToSettings_roundtrip (s : Settings) :
    jsonToSettings (settingsToJson s) = some s := rfl

theorem jsonToProduct_roundtrip (p : Product) :
    jsonToProduct (productToJson p) = some p := by
  simp [jsonToProduct, productToJson, jGet, jAsString, jAsArr, jAsBool,
    List.lookup, decodeList_map jsonToVolume_roundtrip]

theorem jsonToCollection_roundtrip (c : Collection) :
    jsonToCollection (collectionToJson c) = some c := by
  simp [jsonToCollection, collectionToJson, jGet, jAsString, jAsArr,
    List.lookup, decodeList_map jsonToProductReference_roundtrip]

theorem decodeStore_saveCache (s : DataStore) :
    decodeStore (saveCache s).categoriesDoc (saveCache s).productsDoc
      (saveCache s).collectionsDoc (saveCache s).settingsDoc = some s := by
  simp [decodeStore, saveCache, jAsArr, jsonToSettings_roundtrip,
    decodeList_map jsonToCategory_roundtrip,
    decodeList_map jsonToProduct_roundtrip,
    decodeList_map jsonToCollection_roundtrip]

/-- C7: after any create/update/delete mutation of the store, if the
persist of the four documents completes, loading the store back from
exactly those persisted documents reproduces the mutated in-memory
snapshot (and marks the cache ready) — load after persist is the identity
on the snapshot, whatever cache value preceded the load. -/
theorem persist_load_roundtrip (prev s : DataStore) (m : Mutation) :
    loadDataIntoCache prev
        (some (saveCache (applyMutation s m)).categoriesDoc)
        (some (saveCache (applyMutation s m)).productsDoc)
        (some (saveCache (applyMutation s m)).collectionsDoc)
        (some (saveCache (applyMutation s m)).settingsDoc) =
      (applyMutation s m, true) := by
  simp [loadDataIntoCache, decodeStore_saveCache]

/-- C8: at boot (previous cache = the empty default), if any of the four
document reads or parses fails the loaded snapshot is the empty default
and the ready flag is still set, so the service starts; when all four
documents are read and decode successfully the snapshot equals their
parsed contents (and the ready flag is set). -/
theorem boot_load_fallback_or_success
    (rc rp rl rs : Option Json)
    (hfail : rc = none ∨ rp = none ∨ rl = none ∨ rs = none) :
    loadDataIntoCache defaultStore rc rp rl rs = (defaultStore, true) ∧
    ∀ jc jp jl js st, decodeStore jc jp jl js = some st →
      loadDataIntoCache defaultStore (some jc) (some jp) (some jl)
          (some js) = (st, true) := by
  constructor
  · rcases rc with _ | jc
    · cases rp <;> cases rl <;> cases rs <;> rfl
    · rcases rp with _ | jp
      · cases rl <;> cases rs <;> rfl
      · rcases rl with _ | jl
        · cases rs <;> rfl
        · rcases rs with _ | js
          · rfl
          · simp at hfail
  · intro jc jp jl js st h
    simp [loadDataIntoCache, h]

/-- Witness for C8: a failed categories read falls back to the default
snapshot with the ready flag set. -/
theorem boot_load_fallback_or_success_witness :
    loadDataIntoCache defaultStore none (some (Json.arr []))
        (some (Json.arr []))
        (some (Json.obj [("phoneNumber", Json.str "")])) =
      (defaultStore, true) :=
  (boot_load_fallback_or_success none (some (Json.arr []))
      (some (Json.arr []))
      (some (Json.obj [("phoneNumber", Json.str "")]))
      (Or.inl rfl)).1

end Catalog
